import Mathlib

/-!
Verification development for the okteto `apps.DeploymentApp` adapter
(src/cmd/context/use-namespace.go, the `package apps` section).

Go `map[string]string` values are modelled as association lists
(`KVMap`) wrapped in `Option` to distinguish a nil map from an empty
one.  Reading from a nil map yields the zero value `""` (as in Go);
`delete` on a nil map is a no-op (as in Go); *assignment* into a nil
map is a runtime panic in Go, modelled here by an `Option`-valued
result (`none` = panic).  Stateful methods on the adapter become
functions from the deployment value to an updated deployment value
(plus an error component where the Go method returns `error`).
-/

/-- Association-list model of Go `map[string]string`. -/
abbrev KVMap := List (String × String)

/-- Go map read: value of the first binding of `k`, or the zero value `""`. -/
def mapLookup : KVMap → String → String
  | [], _ => ""
  | (k', v') :: rest, k => if k' = k then v' else mapLookup rest k

/-- Go map write `m[k] = v`: overwrite the binding of `k`, or append it. -/
def mapInsert : KVMap → String → String → KVMap
  | [], k, v => [(k, v)]
  | (k', v') :: rest, k, v =>
      if k' = k then (k, v) :: rest else (k', v') :: mapInsert rest k v

/-- Go `delete(m, k)`: remove every binding of `k`. -/
def mapErase (m : KVMap) (k : String) : KVMap :=
  m.filter (fun p => p.1 ≠ k)

/-- Whether the map has a binding for `k`. -/
def mapHasKey (m : KVMap) (k : String) : Bool :=
  m.any (fun p => p.1 = k)

/-- Read from a possibly-nil map: nil reads as the zero value `""`. -/
def oGet (m : Option KVMap) (k : String) : String :=
  match m with
  | none => ""
  | some l => mapLookup l k

/-- Lazily-initializing write, the `if m == nil { m = map[string]string{} }; m[k] = v`
pattern used by the four Set accessors. -/
def oSet (m : Option KVMap) (k v : String) : Option KVMap :=
  match m with
  | none => some (mapInsert [] k v)
  | some l => some (mapInsert l k v)

/-- Bare Go assignment `m[k] = v` with no nil check: panics (`none`) on a nil map. -/
def oAssign (m : Option KVMap) (k v : String) : Option (Option KVMap) :=
  match m with
  | none => none
  | some l => some (some (mapInsert l k v))

/-- Go `delete(m, k)` on a possibly-nil map: deleting from nil is a no-op. -/
def oErase (m : Option KVMap) (k : String) : Option KVMap :=
  match m with
  | none => none
  | some l => some (mapErase l k)

/-- Whether a possibly-nil map has a binding for `k` (nil has none). -/
def oHasKey (m : Option KVMap) (k : String) : Bool :=
  match m with
  | none => false
  | some l => mapHasKey l k

/- Annotation and label keys from the okteto `model` package and the
`apps` package.  The `model` package is not part of this excerpt; the
concrete strings below are stand-ins for its distinct exported
constants, matching the persisted-state table of the spec. -/

/-- `oktetoVersionAnnotation`. -/
def oktetoVersionAnn : String := "dev.okteto.com/version"

/-- `model.OktetoRevisionAnnotation`. -/
def oktetoRevisionAnn : String := "dev.okteto.com/revision"

/-- `model.DeploymentRevisionAnnotation` (the revision the controller records). -/
def deploymentRevisionAnn : String := "deployment.kubernetes.io/revision"

/-- `model.DeploymentAnnotation`: the full-manifest backup annotation. -/
def deploymentAnn : String := "dev.okteto.com/deployment"

/-- `model.TranslationAnnotation`. -/
def translationAnn : String := "dev.okteto.com/translation"

/-- `model.OktetoRestartAnnotation`. -/
def oktetoRestartAnn : String := "dev.okteto.com/restart"

/-- `model.OktetoAutoCreateAnnotation`. -/
def oktetoAutoCreateAnn : String := "dev.okteto.com/auto-create"

/-- `model.OktetoUpCmd`. -/
def oktetoUpCmd : String := "up"

/-- `model.DevLabel`. -/
def devLabel : String := "dev.okteto.com"

/-- `model.InteractiveDevLabel`. -/
def interactiveDevLabel : String := "interactive.dev.okteto.com"

/-- `model.DetachedDevLabel`. -/
def detachedDevLabel : String := "detached.dev.okteto.com"

/-- `model.OktetoDivertLabel`. -/
def oktetoDivertLabel : String := "dev.okteto.com/divert"

/-- `model.DeployedByLabel`. -/
def deployedByLabel : String := "dev.okteto.com/deployed-by"

/-- `model.TranslationVersion`. -/
def translationVersion : String := "1.0"

/-- `appsv1.RecreateDeploymentStrategyType`. -/
def recreateStrategyType : String := "Recreate"

/-- `appsv1.RollingUpdateDeploymentStrategyType`. -/
def rollingUpdateStrategyType : String := "RollingUpdate"

/-- `appsv1.RollingUpdateDeployment` parameters (kept opaque as strings). -/
structure RollingUpdateDeployment where
  maxUnavailable : Option String
  maxSurge : Option String
deriving DecidableEq, Repr

/-- `appsv1.DeploymentStrategy`: a type tag plus optional rolling-update params. -/
structure DeploymentStrategy where
  type : String
  rollingUpdate : Option RollingUpdateDeployment
deriving DecidableEq, Repr

/-- `metav1.LabelSelector` restricted to the `MatchLabels` field the code uses. -/
structure LabelSelector where
  matchLabels : Option KVMap
deriving DecidableEq, Repr

/-- Pod template: its labels, annotations and an opaque pod-spec payload. -/
structure PodTemplateSpec where
  labels : Option KVMap
  annotations : Option KVMap
  spec : String
deriving DecidableEq, Repr

/-- `appsv1.DeploymentSpec` restricted to the fields the adapter touches. -/
structure DeploymentSpec where
  replicas : Option Int
  strategy : DeploymentStrategy
  selector : Option LabelSelector
  template : PodTemplateSpec
deriving DecidableEq, Repr

/-- `appsv1.DeploymentStatus`, opaque; the zero value is `⟨""⟩`. -/
structure DeploymentStatus where
  payload : String
deriving DecidableEq, Repr

/-- `appsv1.Deployment` restricted to the fields the adapter touches.
`nspace` stands for the `Namespace` field (a Lean keyword). -/
structure Deployment where
  name : String
  nspace : String
  kind : String
  uid : String
  resourceVersion : String
  labels : Option KVMap
  annotations : Option KVMap
  spec : DeploymentSpec
  status : DeploymentStatus
deriving DecidableEq, Repr

/-- The slice of `model.Dev` that `NewTranslation` reads. -/
structure Dev where
  name : String
  annotations : Option KVMap
  tolerations : List String
  nspace : String
deriving DecidableEq, Repr

/-- `apps.Translation`: the immutable pre-dev-mode snapshot.  The `App`
back-reference of the Go struct is a pointer used only for lookup and is
omitted. -/
structure Translation where
  interactive : Bool
  name : String
  version : String
  annotations : Option KVMap
  tolerations : List String
  replicas : Int
  deploymentStrategy : DeploymentStrategy
deriving DecidableEq, Repr

/-- `func (i *DeploymentApp) GetLabel(key string) string`. -/
def GetLabel (d : Deployment) (key : String) : String :=
  oGet d.labels key

/-- `func (i *DeploymentApp) GetPodLabel(key string) string`. -/
def GetPodLabel (d : Deployment) (key : String) : String :=
  oGet d.spec.template.labels key

/-- `func (i *DeploymentApp) GetAnnotation(key string) string`. -/
def GetAnnotation (d : Deployment) (key : String) : String :=
  oGet d.annotations key

/-- `func (i *DeploymentApp) GetPodAnnotation(key string) string`. -/
def GetPodAnnotation (d : Deployment) (key : String) : String :=
  oGet d.spec.template.annotations key

/-- `func (i *DeploymentApp) SetLabel(key, value string)`: lazily makes the map. -/
def SetLabel (d : Deployment) (key value : String) : Deployment :=
  { d with labels := oSet d.labels key value }

/-- `func (i *DeploymentApp) SetPodLabel(key, value string)`: lazily makes the map. -/
def SetPodLabel (d : Deployment) (key value : String) : Deployment :=
  { d with spec.template.labels := oSet d.spec.template.labels key value }

/-- `func (i *DeploymentApp) SetAnnotation(key, value string)`: lazily makes the map. -/
def SetAnnotation (d : Deployment) (key value : String) : Deployment :=
  { d with annotations := oSet d.annotations key value }

/-- `func (i *DeploymentApp) SetPodAnnotation(key, value string)`: lazily makes the map. -/
def SetPodAnnotation (d : Deployment) (key value : String) : Deployment :=
  { d with spec.template.annotations := oSet d.spec.template.annotations key value }

/-- `func (i *DeploymentApp) NewTranslation(dev *model.Dev) *Translation`.
`i.Replicas()` dereferences `i.d.Spec.Replicas`; a nil pointer is a Go
panic, modelled as `none`. -/
def NewTranslation (dev : Dev) (d : Deployment) : Option Translation :=
  match d.spec.replicas with
  | none => none
  | some r =>
      some { interactive := true
             name := dev.name
             version := translationVersion
             annotations := dev.annotations
             tolerations := dev.tolerations
             replicas := r
             deploymentStrategy := d.spec.strategy }

/-- `func (i *DeploymentApp) DevModeOn()`: one replica, bare Recreate strategy. -/
def DevModeOn (d : Deployment) : Deployment :=
  { d with
    spec.replicas := some 1
    spec.strategy := { type := recreateStrategyType, rollingUpdate := none } }

/-- Modelled from the spec: `deleteUserAnnotations` is defined outside this
excerpt.  Per the spec, `ExitDevMode` deletes every annotation the session
introduced, so it deletes each key of the translation's annotation set from
the given map. -/
def deleteUserAnnotations (ann : Option KVMap) (t : Translation) : Option KVMap :=
  match t.annotations with
  | none => ann
  | some tas => tas.foldl (fun acc kv => oErase acc kv.1) ann

/-- `func (i *DeploymentApp) DevModeOff(t *Translation)`: restore replicas and
strategy from the translation, then delete the dev-mode annotations and labels. -/
def DevModeOff (t : Translation) (d : Deployment) : Deployment :=
  let d := { d with
             spec.replicas := some t.replicas
             spec.strategy := t.deploymentStrategy }
  let d := { d with annotations := oErase d.annotations oktetoVersionAnn }
  let d := { d with annotations := oErase d.annotations oktetoRevisionAnn }
  let d := { d with annotations := deleteUserAnnotations d.annotations t }
  let d := { d with spec.template.annotations :=
               oErase d.spec.template.annotations translationAnn }
  let d := { d with spec.template.annotations :=
               oErase d.spec.template.annotations oktetoRestartAnn }
  let d := { d with labels := oErase d.labels devLabel }
  let d := { d with spec.template.labels :=
               oErase d.spec.template.labels interactiveDevLabel }
  { d with spec.template.labels :=
      oErase d.spec.template.labels detachedDevLabel }

/-- `func (i *DeploymentApp) SetOktetoRevision()`: a bare assignment into
`i.d.Annotations`, which panics (`none`) when the map is nil. -/
def SetOktetoRevision (d : Deployment) : Option Deployment :=
  match oAssign d.annotations oktetoRevisionAnn (oGet d.annotations deploymentRevisionAnn) with
  | none => none
  | some ann => some { d with annotations := ann }

/-- Modelled from the spec: `DivertName` is defined outside this excerpt.
Per the spec's naming rule, the clone name is a deterministic function of
the username and the original name, unique and stable per pair. -/
def DivertName (username name : String) : String :=
  username ++ "-" ++ name

/-- Modelled from the spec: `annotations.Set` (pkg/k8s/annotations) is
outside this excerpt.  Per the spec it stamps the given annotation on the
object's metadata, allocating the map on first write. -/
def annSet (m : Option KVMap) (key value : String) : Option KVMap :=
  oSet m key value

/-- `func translateDivertDeployment(username string, d *appsv1.Deployment)`.
`d.DeepCopy()` is a value copy here; every subsequent write hits the copy. -/
def translateDivertDeployment (username : String) (d : Deployment) : Deployment :=
  let result := d
  let result := { result with uid := "" }
  let result := { result with name := DivertName username d.name }
  let result := { result with labels := some [(oktetoDivertLabel, username)] }
  let result :=
    match d.labels with
    | none => result
    | some ls =>
        if mapLookup ls deployedByLabel ≠ "" then
          { result with labels := oSet result.labels deployedByLabel (mapLookup ls deployedByLabel) }
        else result
  let result := { result with
                  spec.selector := some { matchLabels := some [(oktetoDivertLabel, username)] } }
  let result := { result with
                  spec.template.labels := some [(oktetoDivertLabel, username)] }
  let result := { result with
                  annotations := annSet result.annotations oktetoAutoCreateAnn oktetoUpCmd }
  { result with resourceVersion := "" }

/-- State-passing view of `translateDivertDeployment`: the Go function
deep-copies `d` into `result` and mutates only `result`, so threading the
original through explicitly returns it untouched alongside the clone. -/
def divertState (username : String) (d : Deployment) : Deployment × Deployment :=
  let original := d
  let result := original
  let result := { result with uid := "" }
  let result := { result with name := DivertName username original.name }
  let result := { result with labels := some [(oktetoDivertLabel, username)] }
  let result :=
    match original.labels with
    | none => result
    | some ls =>
        if mapLookup ls deployedByLabel ≠ "" then
          { result with labels := oSet result.labels deployedByLabel (mapLookup ls deployedByLabel) }
        else result
  let result := { result with
                  spec.selector := some { matchLabels := some [(oktetoDivertLabel, username)] } }
  let result := { result with
                  spec.template.labels := some [(oktetoDivertLabel, username)] }
  let result := { result with
                  annotations := annSet result.annotations oktetoAutoCreateAnn oktetoUpCmd }
  (original, { result with resourceVersion := "" })

/-- The state of the deployment after `SetOriginal`'s first two statements:
the stale manifest annotation deleted and the status cleared. -/
def setOriginalPre (d : Deployment) : Deployment :=
  { d with
    annotations := oErase d.annotations deploymentAnn
    status := { payload := "" } }

/-- `func (i *DeploymentApp) SetOriginal() error`, parameterized by the
`json.Marshal` step.  The stale-annotation delete and the status clear
happen before marshaling; a marshal error returns with those mutations in
place.  The final annotation write is a bare assignment, which panics
(`none`) when the annotations map is nil. -/
def SetOriginal (marshal : Deployment → Except String String) (d : Deployment) :
    Option (Deployment × Option String) :=
  let d1 := setOriginalPre d
  match marshal d1 with
  | Except.error e => some (d1, some e)
  | Except.ok manifestBytes =>
      match oAssign d1.annotations deploymentAnn manifestBytes with
      | none => none
      | some ann => some ({ d1 with annotations := ann }, none)

/-- `func (i *DeploymentApp) RestoreOriginal() error`, parameterized by the
`json.Unmarshal` step.  An empty (or absent) backup annotation is a no-op;
a parse failure returns a malformed-manifest error with the deployment
untouched; success replaces the whole deployment. -/
def RestoreOriginal (parse : String → Except String Deployment) (d : Deployment) :
    Deployment × Option String :=
  let manifest := oGet d.annotations deploymentAnn
  if manifest = "" then (d, none)
  else
    match parse manifest with
    | Except.error e => (d, some ("malformed manifest: " ++ e))
    | Except.ok dOrig => (dOrig, none)

/-- `func (i *DeploymentApp) Refresh(...) error`, parameterized by the
`deployments.Get` store call (a function of the current deployment, since
the Go call passes `i.d.Name` and `i.d.Namespace`).  The in-memory pointer
is replaced only when the call succeeds; the error is returned either way. -/
def Refresh (get : Deployment → Except String Deployment) (d : Deployment) :
    Deployment × Option String :=
  match get d with
  | Except.ok d2 => (d2, none)
  | Except.error e => (d, some e)

/-- `func (i *DeploymentApp) Create(...) error`, parameterized by the
`deployments.Create` store call on the current deployment. -/
def Create (create : Deployment → Except String Deployment) (d : Deployment) :
    Deployment × Option String :=
  match create d with
  | Except.ok d2 => (d2, none)
  | Except.error e => (d, some e)

/-- `func (i *DeploymentApp) Update(...) error`, parameterized by the
`deployments.Update` store call on the current deployment. -/
def Update (update : Deployment → Except String Deployment) (d : Deployment) :
    Deployment × Option String :=
  match update d with
  | Except.ok d2 => (d2, none)
  | Except.error e => (d, some e)

/-- The selector label set of a deployment: the `MatchLabels` pairs of its
selector, empty when the selector or its map is nil. -/
def selectorLabels (d : Deployment) : KVMap :=
  match d.spec.selector with
  | none => []
  | some s =>
      match s.matchLabels with
      | none => []
      | some l => l

/-- A concrete rolling-update strategy used by witnesses and counterexamples. -/
def rollingStrategy : DeploymentStrategy :=
  { type := rollingUpdateStrategyType
    rollingUpdate := some { maxUnavailable := some "25%", maxSurge := some "25%" } }

/-- A concrete deployment used as the base of witnesses and counterexamples. -/
def baseDeployment : Deployment :=
  { name := "web"
    nspace := "staging"
    kind := "Deployment"
    uid := "uid-123"
    resourceVersion := "42"
    labels := none
    annotations := none
    spec := { replicas := some 3
              strategy := rollingStrategy
              selector := none
              template := { labels := none, annotations := none, spec := "podspec" } }
    status := { payload := "" } }

/-- A concrete dev descriptor used by witnesses. -/
def baseDev : Dev :=
  { name := "web", annotations := none, tolerations := [], nspace := "staging" }

/-- Deleting an absent key leaves the map unchanged. -/
theorem mapErase_eq_self (m : KVMap) (k : String) (h : mapHasKey m k = false) :
    mapErase m k = m := by
  induction m with
  | nil => rfl
  | cons p rest ih =>
      simp only [mapHasKey, List.any_cons, Bool.or_eq_false_iff] at h
      simp only [mapErase, List.filter_cons]
      have hp : (decide (p.1 ≠ k)) = true := by
        simp only [decide_not, h.1, Bool.not_false]
      rw [if_pos hp]
      have := ih (by simpa [mapHasKey] using h.2)
      simpa [mapErase] using this

/-- Deleting an absent key from a possibly-nil map leaves it unchanged. -/
theorem oErase_eq_self (m : Option KVMap) (k : String) (h : oHasKey m k = false) :
    oErase m k = m := by
  cases m with
  | none => rfl
  | some l =>
      simp only [oHasKey] at h
      simp only [oErase, mapErase_eq_self l k h]

/-- Folding erasures of keys that are all absent leaves the map unchanged. -/
theorem foldl_oErase_eq_self (l : KVMap) (ann : Option KVMap)
    (h : ∀ kv ∈ l, oHasKey ann kv.1 = false) :
    l.foldl (fun acc kv => oErase acc kv.1) ann = ann := by
  induction l with
  | nil => rfl
  | cons kv rest ih =>
      simp only [List.foldl_cons]
      rw [oErase_eq_self ann kv.1 (h kv (List.mem_cons_self kv rest))]
      exact ih (fun p hp => h p (List.mem_cons_of_mem kv hp))

/-- When every user-annotation key is absent, `deleteUserAnnotations` is the
identity. -/
theorem deleteUserAnnotations_eq_self (t : Translation) (ann : Option KVMap)
    (h : ∀ kv ∈ t.annotations.getD [], oHasKey ann kv.1 = false) :
    deleteUserAnnotations ann t = ann := by
  unfold deleteUserAnnotations
  cases hta : t.annotations with
  | none => rfl
  | some tas =>
      exact foldl_oErase_eq_self tas ann (by simpa [hta] using h)

/-- Claim C1: taking a translation of a workload with replica count `R` and
strategy `S` before dev mode, then applying `DevModeOn` followed by
`DevModeOff` with that translation, restores the replica count to `R` and
the strategy to `S` exactly. -/
theorem claim1_round_trip (dev : Dev) (d : Deployment) (R : Int)
    (S : DeploymentStrategy) (t : Translation)
    (hR : d.spec.replicas = some R) (hS : d.spec.strategy = S)
    (ht : NewTranslation dev d = some t) :
    (DevModeOff t (DevModeOn d)).spec.replicas = some R ∧
    (DevModeOff t (DevModeOn d)).spec.strategy = S := by
  simp only [NewTranslation, hR] at ht
  obtain rfl := Option.some.inj ht
  constructor
  · simp [DevModeOff, DevModeOn]
  · simp [DevModeOff, DevModeOn, hS]

/-- The translation `NewTranslation` builds from `baseDev` and `baseDeployment`. -/
def baseTranslation : Translation :=
  { interactive := true
    name := "web"
    version := translationVersion
    annotations := none
    tolerations := []
    replicas := 3
    deploymentStrategy := rollingStrategy }

/-- Witness for C1 at a concrete deployment with 3 replicas and a
rolling-update strategy. -/
theorem claim1_round_trip_witness :
    (DevModeOff baseTranslation (DevModeOn baseDeployment)).spec.replicas = some 3 ∧
    (DevModeOff baseTranslation (DevModeOn baseDeployment)).spec.strategy = rollingStrategy :=
  claim1_round_trip baseDev baseDeployment 3 rollingStrategy baseTranslation rfl rfl rfl

/-- Claim C3: `DevModeOn` is idempotent, and after one or two applications the
replica count is 1 and the strategy is the bare Recreate strategy. -/
theorem claim3_devmodeon_idempotent (d : Deployment) :
    DevModeOn (DevModeOn d) = DevModeOn d ∧
    (DevModeOn d).spec.replicas = some 1 ∧
    (DevModeOn d).spec.strategy = { type := recreateStrategyType, rollingUpdate := none } :=
  ⟨rfl, rfl, rfl⟩

/-- Claim C4: on a workload carrying none of the dev-mode annotations and
labels (object or pod template), `DevModeOff` succeeds and changes only the
replica count and the update strategy, both set from the translation. -/
theorem claim4_devmodeoff_frame (t : Translation) (d : Deployment)
    (h1 : oHasKey d.annotations oktetoVersionAnn = false)
    (h2 : oHasKey d.annotations oktetoRevisionAnn = false)
    (h3 : ∀ kv ∈ t.annotations.getD [], oHasKey d.annotations kv.1 = false)
    (h4 : oHasKey d.spec.template.annotations translationAnn = false)
    (h5 : oHasKey d.spec.template.annotations oktetoRestartAnn = false)
    (h6 : oHasKey d.labels devLabel = false)
    (h7 : oHasKey d.spec.template.labels interactiveDevLabel = false)
    (h8 : oHasKey d.spec.template.labels detachedDevLabel = false) :
    DevModeOff t d = { d with spec.replicas := some t.replicas, spec.strategy := t.deploymentStrategy } := by
  simp only [DevModeOff]
  rw [oErase_eq_self _ _ h1, oErase_eq_self _ _ h2, deleteUserAnnotations_eq_self t _ h3,
      oErase_eq_self _ _ h4, oErase_eq_self _ _ h5, oErase_eq_self _ _ h6,
      oErase_eq_self _ _ h7, oErase_eq_self _ _ h8]

/-- A concrete translation used by the C4 witness. -/
def devOffTranslation : Translation :=
  { interactive := true
    name := "web"
    version := translationVersion
    annotations := some [("user.okteto.com/extra", "x")]
    tolerations := []
    replicas := 3
    deploymentStrategy := rollingStrategy }

/-- A concrete deployment with populated maps, none of them holding a
dev-mode key. -/
def plainDeployment : Deployment :=
  { baseDeployment with
    labels := some [("app", "web")]
    annotations := some [("team", "core")]
    spec.template.labels := some [("app", "web")]
    spec.template.annotations := some [("observed", "yes")] }

/-- Witness for C4: `DevModeOff` on the concrete dev-key-free deployment
rewrites exactly the replica count and strategy. -/
theorem claim4_devmodeoff_frame_witness :
    DevModeOff devOffTranslation plainDeployment =
      { plainDeployment with spec.replicas := some 3, spec.strategy := rollingStrategy } := by
  have h := claim4_devmodeoff_frame devOffTranslation plainDeployment
    (by decide) (by decide) (by decide) (by decide) (by decide) (by decide) (by decide) (by decide)
  exact h

/-- Looking up the key just inserted returns the inserted value. -/
theorem mapLookup_insert_self (m : KVMap) (k v : String) :
    mapLookup (mapInsert m k v) k = v := by
  induction m with
  | nil => simp [mapInsert, mapLookup]
  | cons p rest ih =>
      by_cases h : p.1 = k
      · simp [mapInsert, mapLookup, h]
      · simp [mapInsert, mapLookup, h, ih]

/-- Reading back through a lazily-initializing write returns the value. -/
theorem oGet_oSet_self (m : Option KVMap) (k v : String) :
    oGet (oSet m k v) k = v := by
  cases m <;> simp [oGet, oSet, mapLookup_insert_self]

/-- Field characterization of the divert clone: identity fields are
regenerated, the selector and pod-template labels become the singleton
divert label, and the pod template payload, pod annotations, replica count,
strategy, namespace, kind and status are taken from the original. -/
theorem translateDivert_fields (u : String) (d : Deployment) :
    (translateDivertDeployment u d).name = DivertName u d.name ∧
    (translateDivertDeployment u d).uid = "" ∧
    (translateDivertDeployment u d).resourceVersion = "" ∧
    (translateDivertDeployment u d).nspace = d.nspace ∧
    (translateDivertDeployment u d).kind = d.kind ∧
    (translateDivertDeployment u d).spec.selector = some { matchLabels := some [(oktetoDivertLabel, u)] } ∧
    (translateDivertDeployment u d).spec.template.labels = some [(oktetoDivertLabel, u)] ∧
    (translateDivertDeployment u d).spec.template.annotations = d.spec.template.annotations ∧
    (translateDivertDeployment u d).spec.template.spec = d.spec.template.spec ∧
    (translateDivertDeployment u d).spec.replicas = d.spec.replicas ∧
    (translateDivertDeployment u d).spec.strategy = d.spec.strategy ∧
    (translateDivertDeployment u d).annotations = annSet d.annotations oktetoAutoCreateAnn oktetoUpCmd ∧
    (translateDivertDeployment u d).status = d.status := by
  unfold translateDivertDeployment
  cases hl : d.labels with
  | none => simp
  | some ls =>
      by_cases hv : mapLookup ls deployedByLabel ≠ "" <;> simp [hv]

/-- The clone's object labels: the divert label plus, when the original
carries a non-empty deployed-by label, that label; nothing else. -/
theorem translateDivert_labels (u : String) (d : Deployment) :
    (translateDivertDeployment u d).labels =
      (if oGet d.labels deployedByLabel ≠ "" then
        some (mapInsert [(oktetoDivertLabel, u)] deployedByLabel (oGet d.labels deployedByLabel))
       else some [(oktetoDivertLabel, u)]) := by
  unfold translateDivertDeployment
  cases hl : d.labels with
  | none => simp [oGet]
  | some ls =>
      by_cases hv : mapLookup ls deployedByLabel ≠ "" <;> simp [hv, oGet, oSet]

/-- Disjointness of two label sets: no key-value pair occurs in both. -/
def kvDisjoint (l1 l2 : KVMap) : Prop :=
  ∀ kv ∈ l1, kv ∉ l2

instance (l1 l2 : KVMap) : Decidable (kvDisjoint l1 l2) :=
  inferInstanceAs (Decidable (∀ kv ∈ l1, kv ∉ l2))

/-- A deployment that is itself a divert clone for user `cindy`: its selector
already carries the divert label for that user. -/
def divertedDeployment : Deployment :=
  { baseDeployment with
    spec.selector := some { matchLabels := some [(oktetoDivertLabel, "cindy")] } }

/-- Counterexample to C2 as stated: diverting `divertedDeployment` for the
same user `cindy` yields a clone whose selector label set equals the
original's, so the two selector sets are not disjoint. -/
theorem claim2_counterexample :
    ¬ kvDisjoint (selectorLabels (translateDivertDeployment "cindy" divertedDeployment))
        (selectorLabels divertedDeployment) := by
  decide

/-- Claim C2 as amended: when the original's selector does not already
contain the divert label pair for `u`, the clone's selector label set is
disjoint from the original's; and the clone's name is `DivertName u d.name`,
a function of `(u, d.name)` alone, hence stable across repeated calls. -/
theorem claim2_amended (u : String) (d : Deployment)
    (h : (oktetoDivertLabel, u) ∉ selectorLabels d) :
    kvDisjoint (selectorLabels (translateDivertDeployment u d)) (selectorLabels d) ∧
    (translateDivertDeployment u d).name = DivertName u d.name := by
  obtain ⟨hname, _, _, _, _, hsel, _⟩ := translateDivert_fields u d
  refine ⟨?_, hname⟩
  intro kv hkv
  have hclone : selectorLabels (translateDivertDeployment u d) = [(oktetoDivertLabel, u)] := by
    simp [selectorLabels, hsel]
  rw [hclone] at hkv
  simp only [List.mem_singleton] at hkv
  subst hkv
  exact h

/-- Witness for C2 as amended, at user `cindy` and the base deployment
(whose selector is nil, hence the empty label set). -/
theorem claim2_amended_witness :
    kvDisjoint (selectorLabels (translateDivertDeployment "cindy" baseDeployment))
      (selectorLabels baseDeployment) ∧
    (translateDivertDeployment "cindy" baseDeployment).name = DivertName "cindy" "web" :=
  claim2_amended "cindy" baseDeployment (by decide)

/-- Claim C7: `translateDivertDeployment` never mutates the original: in the
state-passing reading of the Go function (deep copy, then writes to the copy
only), the original threaded through comes back identical, alongside the
very clone `translateDivertDeployment` returns. -/
theorem claim7_no_mutation (u : String) (d : Deployment) :
    (divertState u d).1 = d ∧ (divertState u d).2 = translateDivertDeployment u d :=
  ⟨rfl, rfl⟩

/-- An original deployment with its own object labels and annotations (and,
from the base, 3 replicas and a rolling-update strategy). -/
def richDeployment : Deployment :=
  { baseDeployment with
    labels := some [("app", "web")]
    annotations := some [("team", "core")] }

/-- Counterexample to C8 as stated: the divert clone of `richDeployment`
carries over the original's replica count, update strategy and object
annotations, which the claim says are not carried over. -/
theorem claim8_counterexample :
    (translateDivertDeployment "cindy" richDeployment).spec.replicas = some 3 ∧
    (translateDivertDeployment "cindy" richDeployment).spec.strategy = rollingStrategy ∧
    oGet (translateDivertDeployment "cindy" richDeployment).annotations "team" = "core" := by
  decide

/-- Claim C8 as amended: the clone's identity fields (name, selector, UID,
resource version) are regenerated and its object labels are replaced by the
divert label plus, when present, the deployed-by label; the pod template
(labels aside) is retained; but the original's object annotations (with the
auto-create marker stamped on), replica count and update strategy are also
carried over. -/
theorem claim8_amended (u : String) (d : Deployment) :
    (translateDivertDeployment u d).name = DivertName u d.name ∧
    (translateDivertDeployment u d).uid = "" ∧
    (translateDivertDeployment u d).resourceVersion = "" ∧
    (translateDivertDeployment u d).spec.selector = some { matchLabels := some [(oktetoDivertLabel, u)] } ∧
    (translateDivertDeployment u d).spec.template.labels = some [(oktetoDivertLabel, u)] ∧
    (translateDivertDeployment u d).labels =
      (if oGet d.labels deployedByLabel ≠ "" then
        some (mapInsert [(oktetoDivertLabel, u)] deployedByLabel (oGet d.labels deployedByLabel))
       else some [(oktetoDivertLabel, u)]) ∧
    (translateDivertDeployment u d).spec.template.spec = d.spec.template.spec ∧
    (translateDivertDeployment u d).spec.template.annotations = d.spec.template.annotations ∧
    (translateDivertDeployment u d).annotations = annSet d.annotations oktetoAutoCreateAnn oktetoUpCmd ∧
    (translateDivertDeployment u d).spec.replicas = d.spec.replicas ∧
    (translateDivertDeployment u d).spec.strategy = d.spec.strategy := by
  obtain ⟨h1, h2, h3, _, _, h6, h7, h8, h9, h10, h11, h12, _⟩ := translateDivert_fields u d
  exact ⟨h1, h2, h3, h6, h7, translateDivert_labels u d, h9, h8, h12, h10, h11⟩

/-- A deployment whose backup annotation holds a non-parseable manifest. -/
def malformedDeployment : Deployment :=
  { baseDeployment with annotations := some [(deploymentAnn, "not-json")] }

/-- A parse step that always fails, standing for `json.Unmarshal` on bad input. -/
def failParse : String → Except String Deployment :=
  fun _ => Except.error "invalid character"

/-- Claim C5: with an empty (or absent) backup annotation, `RestoreOriginal`
returns no error and changes nothing; with a non-empty annotation the parse
step rejects, it returns a malformed-manifest error and leaves the
deployment unchanged. -/
theorem claim5_restore (parse : String → Except String Deployment) (d : Deployment) :
    (oGet d.annotations deploymentAnn = "" → RestoreOriginal parse d = (d, none)) ∧
    (∀ e, oGet d.annotations deploymentAnn ≠ "" →
      parse (oGet d.annotations deploymentAnn) = Except.error e →
      RestoreOriginal parse d = (d, some ("malformed manifest: " ++ e))) := by
  constructor
  · intro h
    simp [RestoreOriginal, h]
  · intro e hne hp
    simp [RestoreOriginal, hne, hp]

/-- Witness for C5: the failing parse at the malformed deployment yields the
malformed-manifest error with the state untouched, and the absent annotation
of the base deployment is a no-op. -/
theorem claim5_restore_witness :
    RestoreOriginal failParse malformedDeployment =
      (malformedDeployment, some ("malformed manifest: " ++ "invalid character")) ∧
    RestoreOriginal failParse baseDeployment = (baseDeployment, none) :=
  ⟨(claim5_restore failParse malformedDeployment).2 "invalid character" (by decide) rfl,
   (claim5_restore failParse baseDeployment).1 rfl⟩

/-- A deployment carrying a stale manifest backup and a non-zero status. -/
def staleDeployment : Deployment :=
  { baseDeployment with
    annotations := some [(deploymentAnn, "old-backup")]
    status := { payload := "progressing" } }

/-- A marshal step that always fails. -/
def failMarshal : Deployment → Except String String :=
  fun _ => Except.error "marshal boom"

/-- A marshal step that always succeeds with a fixed payload. -/
def okMarshal : Deployment → Except String String :=
  fun _ => Except.ok "serialized"

/-- Counterexample to C6 as stated: when marshaling fails, `SetOriginal`
returns the error but the deployment is not left unchanged — the stale
backup annotation has been removed and the status cleared. -/
theorem claim6_counterexample :
    SetOriginal failMarshal staleDeployment =
      some (setOriginalPre staleDeployment, some "marshal boom") ∧
    setOriginalPre staleDeployment ≠ staleDeployment := by
  constructor
  · rfl
  · decide

/-- Claim C6 as amended: a marshal failure returns the error and does not
write the manifest annotation, but the stale-annotation removal and the
status clearing (which precede marshaling) persist; a marshal success on a
deployment whose annotations map is present stores the serialized payload
under the manifest annotation. -/
theorem claim6_amended (marshal : Deployment → Except String String) (d : Deployment) :
    (∀ e, marshal (setOriginalPre d) = Except.error e →
      SetOriginal marshal d = some (setOriginalPre d, some e)) ∧
    (∀ bytes, marshal (setOriginalPre d) = Except.ok bytes → d.annotations ≠ none →
      ∃ d', SetOriginal marshal d = some (d', none) ∧
        oGet d'.annotations deploymentAnn = bytes) := by
  constructor
  · intro e he
    simp [SetOriginal, he]
  · intro bytes hb hann
    cases hl : d.annotations with
    | none => exact absurd hl hann
    | some l =>
        refine ⟨{ setOriginalPre d with annotations := some (mapInsert (mapErase l deploymentAnn) deploymentAnn bytes) }, ?_, ?_⟩
        · simp only [SetOriginal, setOriginalPre, hl, oErase, oAssign] at hb ⊢
          rw [hb]
        · simp [oGet, mapLookup_insert_self]

/-- Witness for C6 as amended: the failing marshal at the stale deployment
returns its error with the partial state, and the succeeding marshal
completes without a panic. -/
theorem claim6_amended_witness :
    SetOriginal failMarshal staleDeployment =
      some (setOriginalPre staleDeployment, some "marshal boom") ∧
    (SetOriginal okMarshal staleDeployment).isSome = true := by
  refine ⟨(claim6_amended failMarshal staleDeployment).1 "marshal boom" rfl, ?_⟩
  obtain ⟨d', h1, h2⟩ := (claim6_amended okMarshal staleDeployment).2 "serialized" rfl (by decide)
  rw [h1]
  rfl

/-- Counterexample to C9 as stated: `SetOktetoRevision` on a deployment
whose annotations map is nil does not lazily allocate — the bare Go map
assignment panics, modelled as `none`. -/
theorem claim9_counterexample : SetOktetoRevision baseDeployment = none := rfl

/-- Claim C9 as amended: the four read accessors return the empty string on
a nil map, and the four Set accessors lazily allocate so their writes always
land; but `SetOktetoRevision` and the annotation write inside `SetOriginal`
perform bare assignments and fail (panic) when the annotations map is nil. -/
theorem claim9_amended (d : Deployment) (k v : String) :
    (d.labels = none → GetLabel d k = "") ∧
    (d.annotations = none → GetAnnotation d k = "") ∧
    (d.spec.template.labels = none → GetPodLabel d k = "") ∧
    (d.spec.template.annotations = none → GetPodAnnotation d k = "") ∧
    GetLabel (SetLabel d k v) k = v ∧
    GetAnnotation ( SetAnnotation d k v) k = v ∧
    GetPodLabel (SetPodLabel d k v) k = v ∧
    GetPodAnnotation ( SetPodAnnotation d k v) k = v ∧
    (d.annotations = none → SetOktetoRevision d = none) ∧
    (d.annotations = none → ∀ marshal bytes, marshal (setOriginalPre d) = Except.ok bytes →
      SetOriginal marshal d = none) := by
  refine ⟨?_, ?_, ?_, ?_, ?_, ?_, ?_, ?_, ?_, ?_⟩
  · intro h; simp [GetLabel, oGet, h]
  · intro h; simp [ GetAnnotation, oGet, h]
  · intro h; simp [GetPodLabel, oGet, h]
  · intro h; simp [ GetPodAnnotation, oGet, h]
  · simp [GetLabel, SetLabel, oGet_oSet_self]
  · simp [ GetAnnotation, SetAnnotation, oGet_oSet_self]
  · simp [GetPodLabel, SetPodLabel, oGet_oSet_self]
  · simp [ GetPodAnnotation, SetPodAnnotation, oGet_oSet_self]
  · intro h; simp [SetOktetoRevision, oAssign, h]
  · intro h marshal bytes hb
    simp only [SetOriginal, setOriginalPre, h, oErase] at hb ⊢
    rw [hb]
    simp [oAssign]

/-- Witness for C9 as amended: on the base deployment (all maps nil) the
getters read empty, a setter write lands, and the two bare-assignment paths
fail. -/
theorem claim9_amended_witness :
    GetLabel baseDeployment "app" = "" ∧
    GetLabel (SetLabel baseDeployment "app" "web") "app" = "web" ∧
    SetOktetoRevision baseDeployment = none ∧
    SetOriginal okMarshal baseDeployment = none := by
  obtain ⟨g1, _, _, _, s1, _, _, _, r, so⟩ := claim9_amended baseDeployment "app" "web"
  exact ⟨g1 rfl, s1, r rfl, so rfl okMarshal "serialized" rfl⟩

/-- A store call that always fails. -/
def failStore : Deployment → Except String Deployment :=
  fun _ => Except.error "store unavailable"

/-- Claim C10: when the store call made by `Refresh`, `Create` or `Update`
returns an error, the in-memory deployment is left unchanged and the error
is propagated. -/
theorem claim10_store_error (get create update : Deployment → Except String Deployment)
    (d : Deployment) (e : String) :
    (get d = Except.error e → Refresh get d = (d, some e)) ∧
    (create d = Except.error e → Create create d = (d, some e)) ∧
    (update d = Except.error e → Update update d = (d, some e)) := by
  refine ⟨?_, ?_, ?_⟩ <;> intro h <;> simp [Refresh, Create, Update, h]

/-- Witness for C10 at the always-failing store call and the base deployment. -/
theorem claim10_store_error_witness :
    Refresh failStore baseDeployment = (baseDeployment, some "store unavailable") ∧
    Create failStore baseDeployment = (baseDeployment, some "store unavailable") ∧
    Update failStore baseDeployment = (baseDeployment, some "store unavailable") := by
  obtain ⟨a, b, c⟩ := claim10_store_error failStore failStore failStore baseDeployment "store unavailable"
  exact ⟨a rfl, b rfl, c rfl⟩
